import Mathlib

/-
  Verification development for the insightfinder / insightfinderai SDK.

  The central component is the streaming response assembler that consumes
  `data:`-prefixed lines from an HTTP streaming response and builds an
  aggregate result (response text, optional evaluations, trace id, model,
  raw chunks).  Two implementations exist in the repository:

  * `insightfinderai/client.py` (`Client.chat`) — the accumulating strategy:
    a fragment that starts an evaluation block switches the machine into an
    accumulating mode; subsequent fragments are appended to a buffer which is
    re-parsed after each append.
  * `insightfinder/client.py` (`LLMLabsClient.chat`) — the single-chunk
    strategy: a fragment that looks like an evaluation payload is parsed
    immediately and whole.

  The JSON library (`json.loads`) is external to the repository; it is
  modelled by parse oracles `ParseChunk` / `ParseEval` passed as parameters.
  JSON string-valued fields are modelled as Lean `String`s; a missing key is
  `none`.  Scores are modelled as rationals.
-/

/-- One evaluation record: `evaluationType` (string), `score` (number),
`explanation` (string). -/
structure EvalItem where
  evaluationType : String
  score : ℚ
  explanation : String
deriving DecidableEq

/-- The JSON object embedded inside streamed content, as read by the code:
`eval_obj.get("evaluations")` and `eval_obj.get("traceId")`. -/
structure EvalPayload where
  evaluations : Option (List EvalItem)
  traceId : Option String
deriving DecidableEq

/-- The `delta` object of a choice: optional `content` string. -/
structure Delta where
  content : Option String
deriving DecidableEq

/-- One element of a chunk's `choices`: `choice.get("delta", {})`. -/
structure Choice where
  delta : Option Delta
deriving DecidableEq

/-- One decoded JSON object from a single `data:` line. -/
structure Chunk where
  model : Option String := none
  id : Option String := none
  choices : Option (List Choice) := none
deriving DecidableEq

/-- Python truthiness of a string variable that may also be `None`:
`None` and the empty string are falsy. -/
def pyTruthy : Option String → Bool
  | none => false
  | some s => s != ""

/-- Boolean substring test on character lists (Python's `needle in hay`). -/
def hasSublistB (needle : List Char) : List Char → Bool
  | [] => needle.isEmpty
  | a :: rest => needle.isPrefixOf (a :: rest) || hasSublistB needle rest

/-- The evaluation-block detection test used by both clients:
`content.startswith("{") and "evaluations" in content`, on the character
sequence of the content string. -/
def hasEvalMarker (content : String) : Bool :=
  "\x7b".toList.isPrefixOf content.toList && hasSublistB "evaluations".toList content.toList

/-- Python `line.startswith('data:')` guarded by `if line` (nonempty). -/
def isDataLine (line : String) : Bool :=
  line != "" && "data:".toList.isPrefixOf line.toList

/-- Python `str.strip()`: remove leading and trailing whitespace. -/
def trimChars (cs : List Char) : List Char :=
  ((cs.dropWhile Char.isWhitespace).reverse.dropWhile Char.isWhitespace).reverse

/-- Python `line[5:].strip()`: drop the 5-character `data:` marker and trim
surrounding whitespace. -/
def stripData (line : String) : String :=
  String.mk (trimChars (line.toList.drop 5))

/-- Content extraction for one choice:
`choice.get("delta", {}).get("content", "")`. -/
def Choice.contentOf (ch : Choice) : String :=
  match ch.delta with
  | some d => d.content.getD ""
  | none => ""

/-- All content fragments of one chunk, in order (empty when `choices` is
absent). -/
def Chunk.contents (c : Chunk) : List String :=
  match c.choices with
  | some chs => chs.map Choice.contentOf
  | none => []

/-- All content fragments of a chunk stream, in arrival order. -/
def streamContents (chunks : List Chunk) : List String :=
  chunks.foldr (fun c acc => c.contents ++ acc) []

/-- A chunk carrying exactly one choice with the given content (no model,
no id). -/
def mkContentChunk (content : String) : Chunk :=
  { model := none, id := none, choices := some [{ delta := some { content := some content } }] }

/-- Model of `json.loads` at the chunk-decoding call sites: `none` models a
raised `JSONDecodeError`. -/
def ParseChunk : Type := String → Option Chunk

/-- Model of `json.loads` (plus the two `.get` reads) at the
evaluation-payload call sites. -/
def ParseEval : Type := String → Option EvalPayload

/-- The terminal output of the assembler (the fields of the returned
object / `SimpleNamespace`). -/
structure AssemblyResult where
  response : String
  evaluations : Option (List EvalItem)
  trace_id : Option String
  model : Option String
  raw_chunks : List Chunk
deriving DecidableEq

/- ------------------------------------------------------------------
   Accumulating assembler: insightfinderai/client.py, Client.chat
   ------------------------------------------------------------------ -/

/-- Loop state of `Client.chat`'s stream-processing loop. -/
structure ChatState where
  results : List Chunk
  stitched_response : String
  evaluations : Option (List EvalItem)
  trace_id : Option String
  model : Option String
  evaluation_buffer : String
  in_evaluation_block : Bool
deriving DecidableEq

/-- Initial loop state of `Client.chat`. -/
def ChatState.init : ChatState :=
  { results := [], stitched_response := "", evaluations := none, trace_id := none,
    model := none, evaluation_buffer := "", in_evaluation_block := false }

/-- Processing of one content fragment by `Client.chat` (the accumulating
strategy). -/
def chatContentStep (pe : ParseEval) (s : ChatState) (content : String) : ChatState :=
  if hasEvalMarker content then
    { s with in_evaluation_block := true, evaluation_buffer := content }
  else if s.in_evaluation_block then
    match pe (s.evaluation_buffer ++ content) with
    | some evalObj =>
        { s with evaluations := evalObj.evaluations,
                 trace_id := match evalObj.traceId with
                             | some t => some t
                             | none => s.trace_id,
                 in_evaluation_block := false,
                 evaluation_buffer := "" }
    | none => { s with evaluation_buffer := s.evaluation_buffer ++ content }
  else
    { s with stitched_response := s.stitched_response ++ content }

/-- Processing of one decoded chunk by `Client.chat`: append to `results`,
capture `model` (when the current value is falsy), overwrite `trace_id` from
`id`, then process each choice's content. -/
def chatChunkStep (pe : ParseEval) (s : ChatState) (c : Chunk) : ChatState :=
  let s1 := { s with results := s.results ++ [c] }
  let s2 := if !pyTruthy s1.model && c.model.isSome then { s1 with model := c.model } else s1
  let s3 := if c.id.isSome then { s2 with trace_id := c.id } else s2
  match c.choices with
  | some chs => chs.foldl (fun st ch => chatContentStep pe st ch.contentOf) s3
  | none => s3

/-- Processing of one raw line by `Client.chat`: keep only nonempty
`data:`-prefixed lines, strip the marker, skip empty payloads and the
`[START]` sentinel, silently discard undecodable payloads. -/
def chatLineStep (pc : ParseChunk) (pe : ParseEval) (s : ChatState) (line : String) : ChatState :=
  if isDataLine line then
    let jsonPart := stripData line
    if jsonPart != "" && jsonPart != "[START]" then
      match pc jsonPart with
      | some c => chatChunkStep pe s c
      | none => s
    else s
  else s

/-- Run of `Client.chat`'s loop over a list of raw lines. -/
def chatRunLines (pc : ParseChunk) (pe : ParseEval) (lines : List String) : ChatState :=
  lines.foldl (chatLineStep pc pe) ChatState.init

/-- Run of `Client.chat`'s loop over a list of already-decoded chunks. -/
def chatRunChunks (pe : ParseEval) (chunks : List Chunk) : ChatState :=
  chunks.foldl (chatChunkStep pe) ChatState.init

/-- Finalization of `Client.chat`'s loop state: the constructed result reads
only `stitched_response`, `evaluations`, `trace_id`, `model` and `results`;
the evaluation buffer and mode flag are ignored. -/
def finalizeChat (s : ChatState) : AssemblyResult :=
  { response := s.stitched_response, evaluations := s.evaluations,
    trace_id := s.trace_id, model := s.model, raw_chunks := s.results }

/-- Full streaming call of `Client.chat`.  `broken = some msg` models a
`requests.exceptions.ChunkedEncodingError` (a `RequestException`) raised by
`iter_lines` after the given lines were delivered: the surrounding
`try/except RequestException` re-raises it as `ValueError("Request failed: ...")`,
so the partially built state is discarded. -/
def clientChatStream (pc : ParseChunk) (pe : ParseEval) (lines : List String)
    (broken : Option String) : Except String AssemblyResult :=
  let finalState := chatRunLines pc pe lines
  match broken with
  | some emsg => Except.error ("Request failed: " ++ emsg)
  | none => Except.ok (finalizeChat finalState)

/- ------------------------------------------------------------------
   Single-chunk assembler: insightfinder/client.py, LLMLabsClient.chat
   ------------------------------------------------------------------ -/

/-- Loop state of `LLMLabsClient.chat`'s stream-processing loop (no
buffer, no mode flag). -/
structure LlmState where
  results : List Chunk
  stitched_response : String
  evaluations : Option (List EvalItem)
  trace_id : Option String
  model : Option String
deriving DecidableEq

/-- Initial loop state of `LLMLabsClient.chat`. -/
def LlmState.init : LlmState :=
  { results := [], stitched_response := "", evaluations := none, trace_id := none, model := none }

/-- Processing of one content fragment by `LLMLabsClient.chat` (the
single-chunk strategy): a marked fragment is parsed whole and immediately;
on parse failure it is silently dropped. -/
def llmContentStep (pe : ParseEval) (s : LlmState) (content : String) : LlmState :=
  if hasEvalMarker content then
    match pe content with
    | some evalObj =>
        { s with evaluations := evalObj.evaluations,
                 trace_id := match evalObj.traceId with
                             | some t => some t
                             | none => s.trace_id }
    | none => s
  else
    { s with stitched_response := s.stitched_response ++ content }

/-- Processing of one decoded chunk by `LLMLabsClient.chat`. -/
def llmChunkStep (pe : ParseEval) (s : LlmState) (c : Chunk) : LlmState :=
  let s1 := { s with results := s.results ++ [c] }
  let s2 := if !pyTruthy s1.model && c.model.isSome then { s1 with model := c.model } else s1
  let s3 := if c.id.isSome then { s2 with trace_id := c.id } else s2
  match c.choices with
  | some chs => chs.foldl (fun st ch => llmContentStep pe st ch.contentOf) s3
  | none => s3

/-- Processing of one raw line by `LLMLabsClient.chat` (identical line
protocol to `Client.chat`). -/
def llmLineStep (pc : ParseChunk) (pe : ParseEval) (s : LlmState) (line : String) : LlmState :=
  if isDataLine line then
    let jsonPart := stripData line
    if jsonPart != "" && jsonPart != "[START]" then
      match pc jsonPart with
      | some c => llmChunkStep pe s c
      | none => s
    else s
  else s

/-- Run of `LLMLabsClient.chat`'s loop over a list of raw lines. -/
def llmRunLines (pc : ParseChunk) (pe : ParseEval) (lines : List String) : LlmState :=
  lines.foldl (llmLineStep pc pe) LlmState.init

/-- Run of `LLMLabsClient.chat`'s loop over a list of already-decoded chunks. -/
def llmRunChunks (pe : ParseEval) (chunks : List Chunk) : LlmState :=
  chunks.foldl (llmChunkStep pe) LlmState.init

/-- Finalization of `LLMLabsClient.chat`'s loop state into the returned
`SimpleNamespace`. -/
def finalizeLlm (s : LlmState) : AssemblyResult :=
  { response := s.stitched_response, evaluations := s.evaluations,
    trace_id := s.trace_id, model := s.model, raw_chunks := s.results }

/-- Full streaming call of `LLMLabsClient.chat`.  `broken = some msg` models
a `ChunkedEncodingError` raised by `iter_lines` after the given lines were
delivered: the loop-level `except ChunkedEncodingError` prints
`"Stream broken: ..."` and the partially built result is still returned.
The first component is the reported error text (if any). -/
def llmChatStream (pc : ParseChunk) (pe : ParseEval) (lines : List String)
    (broken : Option String) : Option String × AssemblyResult :=
  (broken.map (fun e => "Stream broken: " ++ e), finalizeLlm (llmRunLines pc pe lines))

/- ------------------------------------------------------------------
   HTTP status-code handling
   ------------------------------------------------------------------ -/

/-- Status-code classification performed by `LLMLabsClient.chat` before
stream consumption: 2xx passes; 4xx, 5xx and everything else raise
`ValueError`s with distinct message prefixes, each carrying the status code
and the raw response body. -/
def llmStatusCheck (code : Nat) (body : String) : Except String Unit :=
  if 200 ≤ code ∧ code < 300 then Except.ok ()
  else if 400 ≤ code ∧ code < 500 then
    Except.error ("Client error " ++ toString code ++ ": " ++ body)
  else if 500 ≤ code ∧ code < 600 then
    Except.error ("Server error " ++ toString code ++ ": " ++ body)
  else
    Except.error ("Unexpected status code " ++ toString code ++ ": " ++ body)

/-- Status-code handling of `Client.evaluate` (non-streaming): every
non-2xx status raises the single kind
`ValueError("Evaluation API error {code}: {text}")`. -/
def evaluateStatusCheck (code : Nat) (body : String) : Except String Unit :=
  if 200 ≤ code ∧ code < 300 then Except.ok ()
  else Except.error ("Evaluation API error " ++ toString code ++ ": " ++ body)

/-- The error "kind" visible to a caller of the Python code: every raised
error is a `ValueError`, distinguishable only by the text before the status
code, i.e. the longest digit-free prefix of the message. -/
def errKind (msg : String) : String :=
  String.mk (msg.toList.takeWhile (fun ch => !ch.isDigit))

/- ------------------------------------------------------------------
   EvaluationResult / trace-id precedence (insightfinderai)
   ------------------------------------------------------------------ -/

/-- Trace id stored by `EvaluationResult.__init__`:
`self.trace_id = trace_id or evaluation_data.get('traceId', '')`. -/
def evalResultTraceId (evaluationData : EvalPayload) (traceId : Option String) : String :=
  if pyTruthy traceId then traceId.getD "" else evaluationData.traceId.getD ""

/-- Trace id used by `Client.evaluate` / `Client.safety_evaluation`:
`trace_id = trace_id or self._generate_trace_id()`; `gen` models the
freshly generated UUID string. -/
def evaluateTraceId (caller : Option String) (gen : String) : String :=
  if pyTruthy caller then caller.getD "" else gen

/-- Trace id of the `EvaluationResult` returned by `Client.evaluate` /
`Client.safety_evaluation`: the (caller-or-generated) trace id is passed to
`EvaluationResult(result_data, trace_id, ...)`. -/
def evaluateResultTraceId (caller : Option String) (gen : String)
    (resultData : EvalPayload) : String :=
  evalResultTraceId resultData (some (evaluateTraceId caller gen))

/- ------------------------------------------------------------------
   Batch fan-out (batch_chat / batch_evaluate / batch_safety_evaluation)
   ------------------------------------------------------------------ -/

/-- Slot array built by the batch operations: `results = [None] * n`, then
for each completed future (in completion `order`) write the item's outcome
into the slot keyed by its original index (`results[idx] = response` on
success, `results[idx] = None` when the worker raised).  `outcome i = none`
models a raised exception for item `i`. -/
def batchSlots {α : Type} (outcome : Nat → Option α) (n : Nat) (order : List Nat) :
    List (Option α) :=
  order.foldl (fun slots i => slots.set i (outcome i)) (List.replicate n none)

/-- List returned by the batch operations:
`return [r for r in results if r is not None]`. -/
def batchReturned {α : Type} (outcome : Nat → Option α) (n : Nat) (order : List Nat) :
    List α :=
  (batchSlots outcome n order).filterMap id

/- ------------------------------------------------------------------
   Content-core projection of the accumulating assembler
   ------------------------------------------------------------------ -/

/-- The components of `Client.chat`'s loop state that are read or written
exclusively by content-fragment processing. -/
structure ContentCore where
  stitched_response : String
  evaluations : Option (List EvalItem)
  evaluation_buffer : String
  in_evaluation_block : Bool
deriving DecidableEq

/-- Initial content core. -/
def ContentCore.init : ContentCore :=
  { stitched_response := "", evaluations := none, evaluation_buffer := "",
    in_evaluation_block := false }

/-- Projection of the full loop state onto its content core. -/
def ChatState.core (s : ChatState) : ContentCore :=
  { stitched_response := s.stitched_response, evaluations := s.evaluations,
    evaluation_buffer := s.evaluation_buffer,
    in_evaluation_block := s.in_evaluation_block }

/-- Action of one content fragment on the content core (the restriction of
`chatContentStep`). -/
def coreStep (pe : ParseEval) (t : ContentCore) (content : String) : ContentCore :=
  if hasEvalMarker content then
    { t with in_evaluation_block := true, evaluation_buffer := content }
  else if t.in_evaluation_block then
    match pe (t.evaluation_buffer ++ content) with
    | some evalObj =>
        { t with evaluations := evalObj.evaluations,
                 in_evaluation_block := false, evaluation_buffer := "" }
    | none => { t with evaluation_buffer := t.evaluation_buffer ++ content }
  else
    { t with stitched_response := t.stitched_response ++ content }

/-- Fragments classified as regular response content by the accumulating
machine started at core `t`: a fragment is *normal* exactly when it neither
carries the evaluation marker nor arrives while the machine is accumulating
an evaluation block. -/
def normalFragsFrom (pe : ParseEval) : ContentCore → List String → List String
  | _, [] => []
  | t, c :: cs =>
      (if hasEvalMarker c = false ∧ t.in_evaluation_block = false then [c] else [])
        ++ normalFragsFrom pe (coreStep pe t c) cs

/-- Concatenation of a fragment list in order, with no separator. -/
def joinFrags : List String → String
  | [] => ""
  | c :: cs => c ++ joinFrags cs

/-- Run of the content-core machine from a given core. -/
def coreRunFrom (pe : ParseEval) (t : ContentCore) (cs : List String) : ContentCore :=
  cs.foldl (coreStep pe) t

/- ------------------------------------------------------------------
   Helper lemmas: core factorization
   ------------------------------------------------------------------ -/

lemma chatContentStep_core (pe : ParseEval) (s : ChatState) (c : String) :
    (chatContentStep pe s c).core = coreStep pe s.core c := by
  unfold chatContentStep coreStep
  by_cases h : hasEvalMarker c <;> simp [h, ChatState.core]
  by_cases hb : s.in_evaluation_block <;> simp [hb]
  cases hpe : pe (s.evaluation_buffer ++ c) <;> simp [hpe]

lemma chatContentStep_model (pe : ParseEval) (s : ChatState) (c : String) :
    (chatContentStep pe s c).model = s.model := by
  unfold chatContentStep
  by_cases h : hasEvalMarker c <;> simp [h]
  by_cases hb : s.in_evaluation_block <;> simp [hb]
  cases hpe : pe (s.evaluation_buffer ++ c) <;> simp [hpe]

lemma chatContentStep_results (pe : ParseEval) (s : ChatState) (c : String) :
    (chatContentStep pe s c).results = s.results := by
  unfold chatContentStep
  by_cases h : hasEvalMarker c <;> simp [h]
  by_cases hb : s.in_evaluation_block <;> simp [hb]
  cases hpe : pe (s.evaluation_buffer ++ c) <;> simp [hpe]

lemma foldl_chatContentStep_core (pe : ParseEval) (chs : List Choice) :
    ∀ s : ChatState,
      (chs.foldl (fun st ch => chatContentStep pe st ch.contentOf) s).core
        = (chs.map Choice.contentOf).foldl (coreStep pe) s.core := by
  induction chs with
  | nil => intro s; rfl
  | cons ch rest ih =>
      intro s
      simp only [List.foldl_cons, List.map_cons]
      rw [ih, chatContentStep_core]

lemma foldl_chatContentStep_model (pe : ParseEval) (chs : List Choice) :
    ∀ s : ChatState,
      (chs.foldl (fun st ch => chatContentStep pe st ch.contentOf) s).model = s.model := by
  induction chs with
  | nil => intro s; rfl
  | cons ch rest ih =>
      intro s
      simp only [List.foldl_cons]
      rw [ih, chatContentStep_model]

lemma foldl_chatContentStep_results (pe : ParseEval) (chs : List Choice) :
    ∀ s : ChatState,
      (chs.foldl (fun st ch => chatContentStep pe st ch.contentOf) s).results = s.results := by
  induction chs with
  | nil => intro s; rfl
  | cons ch rest ih =>
      intro s
      simp only [List.foldl_cons]
      rw [ih, chatContentStep_results]

lemma chatChunkStep_core (pe : ParseEval) (s : ChatState) (c : Chunk) :
    (chatChunkStep pe s c).core = c.contents.foldl (coreStep pe) s.core := by
  unfold chatChunkStep Chunk.contents
  cases hch : c.choices with
  | none =>
      simp only [hch]
      by_cases hm : !pyTruthy s.model && c.model.isSome <;>
        by_cases hi : c.id.isSome <;> simp [hm, hi, ChatState.core]
  | some chs =>
      simp only [hch]
      rw [foldl_chatContentStep_core]
      by_cases hm : !pyTruthy s.model && c.model.isSome <;>
        by_cases hi : c.id.isSome <;> simp [hm, hi, ChatState.core]

lemma chatRunChunks_core_from (pe : ParseEval) (chunks : List Chunk) :
    ∀ s : ChatState,
      (chunks.foldl (chatChunkStep pe) s).core
        = (streamContents chunks).foldl (coreStep pe) s.core := by
  induction chunks with
  | nil => intro s; rfl
  | cons c rest ih =>
      intro s
      have hs : streamContents (c :: rest) = c.contents ++ streamContents rest := rfl
      simp only [List.foldl_cons, hs, List.foldl_append]
      rw [ih, chatChunkStep_core]

lemma chatRunChunks_core (pe : ParseEval) (chunks : List Chunk) :
    (chatRunChunks pe chunks).core
      = (streamContents chunks).foldl (coreStep pe) ContentCore.init := by
  have h := chatRunChunks_core_from pe chunks ChatState.init
  simpa [chatRunChunks, ChatState.core, ChatState.init, ContentCore.init] using h

/- ------------------------------------------------------------------
   Helper lemmas: the content-core machine
   ------------------------------------------------------------------ -/

lemma coreStep_stitched (pe : ParseEval) (t : ContentCore) (c : String) :
    (coreStep pe t c).stitched_response
      = t.stitched_response
          ++ (if hasEvalMarker c = false ∧ t.in_evaluation_block = false then c else "") := by
  unfold coreStep
  by_cases h : hasEvalMarker c <;> simp [h]
  by_cases hb : t.in_evaluation_block <;> simp [hb]
  cases hpe : pe (t.evaluation_buffer ++ c) <;> simp [hpe]

lemma coreStep_inblock_of_normal (pe : ParseEval) (t : ContentCore) (c : String)
    (h : hasEvalMarker c = false) (hb : t.in_evaluation_block = false) :
    (coreStep pe t c).in_evaluation_block = false := by
  unfold coreStep
  simp [h, hb]

lemma coreRunFrom_stitched (pe : ParseEval) (cs : List String) :
    ∀ t : ContentCore,
      (coreRunFrom pe t cs).stitched_response
        = t.stitched_response ++ joinFrags (normalFragsFrom pe t cs) := by
  induction cs with
  | nil => intro t; simp [coreRunFrom, normalFragsFrom, joinFrags]
  | cons c rest ih =>
      intro t
      have hstep : coreRunFrom pe t (c :: rest) = coreRunFrom pe (coreStep pe t c) rest := rfl
      rw [hstep, ih, coreStep_stitched]
      by_cases h : hasEvalMarker c = false ∧ t.in_evaluation_block = false
      · simp [normalFragsFrom, h, joinFrags, String.append_assoc]
      · simp [normalFragsFrom, h, joinFrags]

lemma normalFragsFrom_of_no_marker (pe : ParseEval) (cs : List String) :
    ∀ t : ContentCore, (∀ c ∈ cs, hasEvalMarker c = false) →
      t.in_evaluation_block = false → normalFragsFrom pe t cs = cs := by
  induction cs with
  | nil => intro t _ _; rfl
  | cons c rest ih =>
      intro t hall hb
      have hc : hasEvalMarker c = false := hall c (List.mem_cons_self c rest)
      have hrest : ∀ x ∈ rest, hasEvalMarker x = false :=
        fun x hx => hall x (List.mem_cons_of_mem c hx)
      unfold normalFragsFrom
      rw [ih (coreStep pe t c) hrest (coreStep_inblock_of_normal pe t c hc hb)]
      simp [hc, hb]

lemma coreStep_still_inblock (pe : ParseEval) (t : ContentCore) (c : String)
    (h : (coreStep pe t c).in_evaluation_block = true) :
    (coreStep pe t c).evaluations = t.evaluations
      ∧ (coreStep pe t c).stitched_response = t.stitched_response := by
  unfold coreStep at h ⊢
  by_cases hm : hasEvalMarker c
  · simp [hm]
  · simp only [hm] at h ⊢
    by_cases hb : t.in_evaluation_block
    · simp only [hb] at h ⊢
      cases hpe : pe (t.evaluation_buffer ++ c) <;> simp [hpe] at h ⊢
    · simp [hb] at h

/- ------------------------------------------------------------------
   Helper lemmas: line protocol (undecodable payloads)
   ------------------------------------------------------------------ -/

lemma chatLineStep_undecodable (pc : ParseChunk) (pe : ParseEval) (s : ChatState)
    (line : String) (h : pc (stripData line) = none) :
    chatLineStep pc pe s line = s := by
  unfold chatLineStep
  by_cases h1 : isDataLine line <;> simp only [h1, if_true, if_false]
  · by_cases h2 : stripData line != "" && stripData line != "[START]" <;>
      simp only [h2, if_true, if_false]
    · simp [h]
    · rfl
  · rfl

lemma llmLineStep_undecodable (pc : ParseChunk) (pe : ParseEval) (s : LlmState)
    (line : String) (h : pc (stripData line) = none) :
    llmLineStep pc pe s line = s := by
  unfold llmLineStep
  by_cases h1 : isDataLine line <;> simp only [h1, if_true, if_false]
  · by_cases h2 : stripData line != "" && stripData line != "[START]" <;>
      simp only [h2, if_true, if_false]
    · simp [h]
    · rfl
  · rfl

lemma chatRunLines_skip_undecodable (pc : ParseChunk) (pe : ParseEval)
    (pre post : List String) (bad : String) (h : pc (stripData bad) = none) :
    chatRunLines pc pe (pre ++ bad :: post) = chatRunLines pc pe (pre ++ post) := by
  unfold chatRunLines
  rw [List.foldl_append, List.foldl_append, List.foldl_cons,
    chatLineStep_undecodable pc pe _ bad h]

lemma llmRunLines_skip_undecodable (pc : ParseChunk) (pe : ParseEval)
    (pre post : List String) (bad : String) (h : pc (stripData bad) = none) :
    llmRunLines pc pe (pre ++ bad :: post) = llmRunLines pc pe (pre ++ post) := by
  unfold llmRunLines
  rw [List.foldl_append, List.foldl_append, List.foldl_cons,
    llmLineStep_undecodable pc pe _ bad h]

/- ------------------------------------------------------------------
   Helper lemmas: chunk metadata (model capture)
   ------------------------------------------------------------------ -/

lemma chatChunkStep_model (pe : ParseEval) (s : ChatState) (c : Chunk) :
    (chatChunkStep pe s c).model
      = if !pyTruthy s.model && c.model.isSome then c.model else s.model := by
  unfold chatChunkStep
  cases hch : c.choices with
  | none =>
      by_cases hm : !pyTruthy s.model && c.model.isSome <;>
        by_cases hi : c.id.isSome <;> simp [hm, hi]
  | some chs =>
      rw [foldl_chatContentStep_model]
      by_cases hm : !pyTruthy s.model && c.model.isSome <;>
        by_cases hi : c.id.isSome <;> simp [hm, hi]

lemma chatChunkStep_results (pe : ParseEval) (s : ChatState) (c : Chunk) :
    (chatChunkStep pe s c).results = s.results ++ [c] := by
  unfold chatChunkStep
  cases hch : c.choices with
  | none =>
      by_cases hm : !pyTruthy s.model && c.model.isSome <;>
        by_cases hi : c.id.isSome <;> simp [hm, hi]
  | some chs =>
      rw [foldl_chatContentStep_results]
      by_cases hm : !pyTruthy s.model && c.model.isSome <;>
        by_cases hi : c.id.isSome <;> simp [hm, hi]

/- ------------------------------------------------------------------
   Helper lemmas: batch slot array
   ------------------------------------------------------------------ -/

lemma batch_foldl_set_notMem {α : Type} (outcome : Nat → Option α) (j : Nat) :
    ∀ (order : List Nat) (slots : List (Option α)), j ∉ order →
      (order.foldl (fun sl i => sl.set i (outcome i)) slots)[j]? = slots[j]? := by
  intro order
  induction order with
  | nil => intro slots _; rfl
  | cons i rest ih =>
      intro slots hj
      have hne : j ≠ i := fun h => hj (h ▸ List.mem_cons_self i rest)
      have hrest : j ∉ rest := fun h => hj (List.mem_cons_of_mem i h)
      rw [List.foldl_cons, ih _ hrest, List.getElem?_set_ne (Ne.symm hne)]

lemma batch_foldl_set_mem {α : Type} (outcome : Nat → Option α) (j : Nat) :
    ∀ (order : List Nat) (slots : List (Option α)), j < slots.length → j ∈ order →
      (order.foldl (fun sl i => sl.set i (outcome i)) slots)[j]? = some (outcome j) := by
  intro order
  induction order with
  | nil => intro slots _ hmem; exact absurd hmem (List.not_mem_nil j)
  | cons i rest ih =>
      intro slots hlen hmem
      rw [List.foldl_cons]
      by_cases hjr : j ∈ rest
      · exact ih _ (by simpa using hlen) hjr
      · have hij : j = i := by
          rcases List.mem_cons.mp hmem with h | h
          · exact h
          · exact absurd h hjr
        subst hij
        rw [batch_foldl_set_notMem outcome j rest _ hjr, List.getElem?_set_eq_of_lt _ hlen]

lemma batch_foldl_set_length {α : Type} (outcome : Nat → Option α) :
    ∀ (order : List Nat) (slots : List (Option α)),
      (order.foldl (fun sl i => sl.set i (outcome i)) slots).length = slots.length := by
  intro order
  induction order with
  | nil => intro slots; rfl
  | cons i rest ih => intro slots; rw [List.foldl_cons, ih]; simp

lemma batchSlots_eq_map {α : Type} (outcome : Nat → Option α) (n : Nat)
    (order : List Nat) (hperm : order.Perm (List.range n)) :
    batchSlots outcome n order = (List.range n).map outcome := by
  apply List.ext_getElem?
  intro j
  by_cases hj : j < n
  · have hmem : j ∈ order := hperm.mem_iff.mpr (List.mem_range.mpr hj)
    rw [batchSlots, batch_foldl_set_mem outcome j order _ (by simpa using hj) hmem]
    simp [List.getElem?_range hj]
  · have h1 : (batchSlots outcome n order).length ≤ j := by
      rw [batchSlots, batch_foldl_set_length]
      simpa using Nat.le_of_not_lt hj
    have h2 : ((List.range n).map outcome).length ≤ j := by
      simpa using Nat.le_of_not_lt hj
    rw [List.getElem?_eq_none h1, List.getElem?_eq_none h2]

lemma batchReturned_eq_filterMap {α : Type} (outcome : Nat → Option α) (n : Nat)
    (order : List Nat) (hperm : order.Perm (List.range n)) :
    batchReturned outcome n order = (List.range n).filterMap outcome := by
  unfold batchReturned
  rw [batchSlots_eq_map outcome n order hperm, List.filterMap_map]
  rfl

/- ------------------------------------------------------------------
   Helper lemmas: evaluation-payload scenarios
   ------------------------------------------------------------------ -/

lemma llmRunChunks_single_payload (pe : ParseEval) (payloadStr : String) (p : EvalPayload)
    (hmark : hasEvalMarker payloadStr = true) (hpe : pe payloadStr = some p) :
    finalizeLlm (llmRunChunks pe [mkContentChunk payloadStr])
      = { response := "", evaluations := p.evaluations, trace_id := p.traceId,
          model := none, raw_chunks := [mkContentChunk payloadStr] } := by
  cases hp : p.traceId <;>
    simp [llmRunChunks, llmChunkStep, mkContentChunk, llmContentStep, Choice.contentOf,
      finalizeLlm, LlmState.init, pyTruthy, hmark, hpe, hp]

lemma chatRunChunks_single_payload_unparsed (pe : ParseEval) (payloadStr : String)
    (hmark : hasEvalMarker payloadStr = true) :
    finalizeChat (chatRunChunks pe [mkContentChunk payloadStr])
      = { response := "", evaluations := none, trace_id := none,
          model := none, raw_chunks := [mkContentChunk payloadStr] } := by
  simp [chatRunChunks, chatChunkStep, mkContentChunk, chatContentStep, Choice.contentOf,
    finalizeChat, ChatState.init, pyTruthy, hmark]

lemma chatRunChunks_split_payload (pe : ParseEval) (f1 f2 : String) (p : EvalPayload)
    (h1 : hasEvalMarker f1 = true) (h2 : hasEvalMarker f2 = false)
    (hpe : pe (f1 ++ f2) = some p) :
    finalizeChat (chatRunChunks pe [mkContentChunk f1, mkContentChunk f2])
      = { response := "", evaluations := p.evaluations, trace_id := p.traceId,
          model := none, raw_chunks := [mkContentChunk f1, mkContentChunk f2] } := by
  cases hp : p.traceId <;>
    simp [chatRunChunks, chatChunkStep, mkContentChunk, chatContentStep, Choice.contentOf,
      finalizeChat, ChatState.init, pyTruthy, h1, h2, hpe, hp]

/- ------------------------------------------------------------------
   Concrete demo inputs (for witnesses and counterexamples)
   ------------------------------------------------------------------ -/

/-- The spec's example evaluation JSON payload, as streamed content. -/
def evalJsonDemo : String :=
  "\x7b\"evaluations\":[\x7b\"evaluationType\":\"toxicity\",\"score\":0.1,\"explanation\":\"ok\"\x7d],\"traceId\":\"abc\"\x7d"

/-- First half of `evalJsonDemo` when split across two content fragments. -/
def evalJsonDemoA : String :=
  "\x7b\"evaluations\":[\x7b\"evaluationType\":\"toxicity\",\"score\":0.1,\"explanation\":\"ok\"\x7d]"

/-- Second half of `evalJsonDemo` when split across two content fragments. -/
def evalJsonDemoB : String := ",\"traceId\":\"abc\"\x7d"

/-- The single evaluation record carried by `evalJsonDemo`. -/
def toxicityItem : EvalItem := { evaluationType := "toxicity", score := 1/10, explanation := "ok" }

/-- The parsed form of `evalJsonDemo`. -/
def demoPayload : EvalPayload := { evaluations := some [toxicityItem], traceId := some "abc" }

/-- Concrete evaluation-parse oracle: exactly the complete demo payload
parses; every other string (in particular the proper prefix `evalJsonDemoA`)
fails, as `json.loads` does on truncated JSON. -/
def peDemo : ParseEval := fun s => if s == evalJsonDemo then some demoPayload else none

/-- Demo chunk carrying the fragment `"Hello "`. -/
def chunkHello : Chunk := mkContentChunk "Hello "

/-- Demo chunk carrying the fragment `"world"` plus `model` and `id` fields. -/
def chunkWorld : Chunk :=
  { model := some "demo-model", id := some "t-1",
    choices := some [{ delta := some { content := some "world" } }] }

/-- JSON text of `chunkHello` as it appears on a `data:` line. -/
def chunkJsonHello : String := "\x7b\"choices\":[\x7b\"delta\":\x7b\"content\":\"Hello \"\x7d\x7d]\x7d"

/-- JSON text of `chunkWorld` as it appears on a `data:` line. -/
def chunkJsonWorld : String :=
  "\x7b\"model\":\"demo-model\",\"id\":\"t-1\",\"choices\":[\x7b\"delta\":\x7b\"content\":\"world\"\x7d\x7d]\x7d"

/-- Concrete chunk-parse oracle: decodes exactly the two demo chunk texts;
everything else (in particular `not-json`) fails to decode. -/
def pcDemo : ParseChunk := fun s =>
  if s == chunkJsonHello then some chunkHello
  else if s == chunkJsonWorld then some chunkWorld
  else none

/- ------------------------------------------------------------------
   Helper lemmas: single-chunk assembler
   ------------------------------------------------------------------ -/

lemma llmContentStep_model (pe : ParseEval) (s : LlmState) (c : String) :
    (llmContentStep pe s c).model = s.model := by
  unfold llmContentStep
  by_cases h : hasEvalMarker c <;> simp [h]
  cases hpe : pe c <;> simp [hpe]

lemma foldl_llmContentStep_model (pe : ParseEval) (chs : List Choice) :
    ∀ s : LlmState,
      (chs.foldl (fun st ch => llmContentStep pe st ch.contentOf) s).model = s.model := by
  induction chs with
  | nil => intro s; rfl
  | cons ch rest ih =>
      intro s
      simp only [List.foldl_cons]
      rw [ih, llmContentStep_model]

lemma llmChunkStep_model (pe : ParseEval) (s : LlmState) (c : Chunk) :
    (llmChunkStep pe s c).model
      = if !pyTruthy s.model && c.model.isSome then c.model else s.model := by
  unfold llmChunkStep
  cases hch : c.choices with
  | none =>
      by_cases hm : !pyTruthy s.model && c.model.isSome <;>
        by_cases hi : c.id.isSome <;> simp [hm, hi]
  | some chs =>
      rw [foldl_llmContentStep_model]
      by_cases hm : !pyTruthy s.model && c.model.isSome <;>
        by_cases hi : c.id.isSome <;> simp [hm, hi]

lemma joinFrags_append (a b : List String) :
    joinFrags (a ++ b) = joinFrags a ++ joinFrags b := by
  induction a with
  | nil =>
      simp [joinFrags, String.empty_append]
  | cons c rest ih => simp [joinFrags, ih, String.append_assoc]

lemma llmContentStep_stitched_no_marker (pe : ParseEval) (s : LlmState) (c : String)
    (h : hasEvalMarker c = false) :
    (llmContentStep pe s c).stitched_response = s.stitched_response ++ c := by
  simp [llmContentStep, h]

lemma foldl_llmContentStep_stitched (pe : ParseEval) (chs : List Choice) :
    ∀ s : LlmState, (∀ ch ∈ chs, hasEvalMarker ch.contentOf = false) →
      (chs.foldl (fun st ch => llmContentStep pe st ch.contentOf) s).stitched_response
        = s.stitched_response ++ joinFrags (chs.map Choice.contentOf) := by
  induction chs with
  | nil =>
      intro s _
      simp [joinFrags, String.append_empty]
  | cons ch rest ih =>
      intro s hall
      have hc : hasEvalMarker ch.contentOf = false := hall ch (List.mem_cons_self ch rest)
      have hrest : ∀ x ∈ rest, hasEvalMarker x.contentOf = false :=
        fun x hx => hall x (List.mem_cons_of_mem ch hx)
      simp only [List.foldl_cons, List.map_cons, joinFrags]
      rw [ih _ hrest, llmContentStep_stitched_no_marker pe s ch.contentOf hc,
        String.append_assoc]

lemma llmChunkStep_stitched_no_marker (pe : ParseEval) (s : LlmState) (c : Chunk)
    (h : ∀ x ∈ c.contents, hasEvalMarker x = false) :
    (llmChunkStep pe s c).stitched_response = s.stitched_response ++ joinFrags c.contents := by
  unfold llmChunkStep
  cases hch : c.choices with
  | none =>
      have hc : c.contents = [] := by simp [Chunk.contents, hch]
      by_cases hm : !pyTruthy s.model && c.model.isSome <;>
        by_cases hi : c.id.isSome <;>
          simp [hm, hi, hc, joinFrags, String.append_empty]
  | some chs =>
      have hc : c.contents = chs.map Choice.contentOf := by simp [Chunk.contents, hch]
      have hall : ∀ ch ∈ chs, hasEvalMarker ch.contentOf = false := by
        intro ch hm
        exact h ch.contentOf (by rw [hc]; exact List.mem_map_of_mem Choice.contentOf hm)
      rw [hc]
      by_cases hm : !pyTruthy s.model && c.model.isSome <;>
        by_cases hi : c.id.isSome <;>
          · simp only [hm, hi]
            rw [foldl_llmContentStep_stitched pe chs _ hall]
            simp [hm, hi]

lemma llmRunChunks_stitched_no_marker (pe : ParseEval) (chunks : List Chunk) :
    ∀ s : LlmState, (∀ x ∈ streamContents chunks, hasEvalMarker x = false) →
      (chunks.foldl (llmChunkStep pe) s).stitched_response
        = s.stitched_response ++ joinFrags (streamContents chunks) := by
  induction chunks with
  | nil =>
      intro s _
      simp [streamContents, joinFrags, String.append_empty]
  | cons c rest ih =>
      intro s hall
      have hs : streamContents (c :: rest) = c.contents ++ streamContents rest := rfl
      have hc : ∀ x ∈ c.contents, hasEvalMarker x = false :=
        fun x hx => hall x (by rw [hs]; exact List.mem_append_left _ hx)
      have hrest : ∀ x ∈ streamContents rest, hasEvalMarker x = false :=
        fun x hx => hall x (by rw [hs]; exact List.mem_append_right _ hx)
      simp only [List.foldl_cons, hs, joinFrags_append]
      rw [ih _ hrest, llmChunkStep_stitched_no_marker pe s c hc, String.append_assoc]

lemma chatRunChunks_response (pe : ParseEval) (chunks : List Chunk) :
    (finalizeChat (chatRunChunks pe chunks)).response
      = joinFrags (normalFragsFrom pe ContentCore.init (streamContents chunks)) := by
  have h0 : (finalizeChat (chatRunChunks pe chunks)).response
      = (chatRunChunks pe chunks).core.stitched_response := rfl
  rw [h0, chatRunChunks_core pe chunks]
  have h1 : (streamContents chunks).foldl (coreStep pe) ContentCore.init
      = coreRunFrom pe ContentCore.init (streamContents chunks) := rfl
  rw [h1, coreRunFrom_stitched pe (streamContents chunks) ContentCore.init]
  simp [ContentCore.init, String.empty_append]

/- ==================================================================
   Claim theorems
   ================================================================== -/

/-- C1 (amended): for a stream whose single content fragment is a complete,
self-contained evaluation JSON object, the single-chunk assembler
(`LLMLabsClient.chat`) produces `evaluations` equal to the payload's
evaluations, `trace_id` equal to the payload's `traceId`, and the fragment
contributes nothing to `response`.  The accumulating assembler
(`Client.chat`), cited by the same claim, only buffers such a fragment and
never attempts to parse it, so its `evaluations` remain absent. -/
theorem C1_single_eval_fragment (pe : ParseEval) (payloadStr : String) (p : EvalPayload)
    (hmark : hasEvalMarker payloadStr = true) (hpe : pe payloadStr = some p) :
    (finalizeLlm (llmRunChunks pe [mkContentChunk payloadStr])).evaluations = p.evaluations
      ∧ (finalizeLlm (llmRunChunks pe [mkContentChunk payloadStr])).trace_id = p.traceId
      ∧ (finalizeLlm (llmRunChunks pe [mkContentChunk payloadStr])).response = ""
      ∧ (finalizeChat (chatRunChunks pe [mkContentChunk payloadStr])).evaluations = none := by
  rw [llmRunChunks_single_payload pe payloadStr p hmark hpe,
    chatRunChunks_single_payload_unparsed pe payloadStr hmark]
  exact ⟨rfl, rfl, rfl, rfl⟩

/-- C1 witness: the amended theorem applied to the spec's example payload
with a concrete parse oracle. -/
theorem C1_single_eval_fragment_witness :
    hasEvalMarker evalJsonDemo = true
      ∧ peDemo evalJsonDemo = some demoPayload
      ∧ ((finalizeLlm (llmRunChunks peDemo [mkContentChunk evalJsonDemo])).evaluations
            = demoPayload.evaluations
          ∧ (finalizeLlm (llmRunChunks peDemo [mkContentChunk evalJsonDemo])).trace_id
            = demoPayload.traceId
          ∧ (finalizeLlm (llmRunChunks peDemo [mkContentChunk evalJsonDemo])).response = ""
          ∧ (finalizeChat (chatRunChunks peDemo [mkContentChunk evalJsonDemo])).evaluations
            = none) :=
  ⟨by decide, rfl, C1_single_eval_fragment peDemo evalJsonDemo demoPayload (by decide) rfl⟩

/-- C1 counterexample: on the claim's own example stream — a single,
complete, self-contained evaluation JSON fragment — the accumulating
assembler (`Client.chat`, cited by the claim) yields no `evaluations` and no
`trace_id` at all, contradicting the claimed `evaluations` list and
`trace_id = "abc"`. -/
theorem C1_counterexample :
    hasEvalMarker evalJsonDemo = true
      ∧ peDemo evalJsonDemo = some demoPayload
      ∧ demoPayload.evaluations = some [toxicityItem]
      ∧ demoPayload.traceId = some "abc"
      ∧ (finalizeChat (chatRunChunks peDemo [mkContentChunk evalJsonDemo])).evaluations = none
      ∧ (finalizeChat (chatRunChunks peDemo [mkContentChunk evalJsonDemo])).trace_id = none
      ∧ (some [toxicityItem] : Option (List EvalItem)) ≠ none
      ∧ (some "abc" : Option String) ≠ none :=
  ⟨by decide, rfl, rfl, rfl, rfl, rfl, by decide, by decide⟩

/-- C2 (amended): when an evaluation payload is split across two
consecutive content fragments, the accumulating assembler reassembles the
buffer and parses it, so the result carries the payload's evaluations, the
payload's `traceId`, and an untouched `response` — i.e. the intended
outcome of the single-fragment case.  It is not, however, equal to the
accumulating assembler's actual single-fragment run, which leaves the
payload unparsed (see the counterexample). -/
theorem C2_split_eval_fragments (pe : ParseEval) (f1 f2 : String) (p : EvalPayload)
    (h1 : hasEvalMarker f1 = true) (h2 : hasEvalMarker f2 = false)
    (hpe : pe (f1 ++ f2) = some p) :
    (finalizeChat (chatRunChunks pe [mkContentChunk f1, mkContentChunk f2])).response = ""
      ∧ (finalizeChat (chatRunChunks pe [mkContentChunk f1, mkContentChunk f2])).evaluations
          = p.evaluations
      ∧ (finalizeChat (chatRunChunks pe [mkContentChunk f1, mkContentChunk f2])).trace_id
          = p.traceId := by
  rw [chatRunChunks_split_payload pe f1 f2 p h1 h2 hpe]
  exact ⟨rfl, rfl, rfl⟩

/-- C2 witness: the amended theorem applied to the spec's example payload
split after the closing bracket of the evaluations array. -/
theorem C2_split_eval_fragments_witness :
    hasEvalMarker evalJsonDemoA = true
      ∧ hasEvalMarker evalJsonDemoB = false
      ∧ peDemo (evalJsonDemoA ++ evalJsonDemoB) = some demoPayload
      ∧ ((finalizeChat (chatRunChunks peDemo
              [mkContentChunk evalJsonDemoA, mkContentChunk evalJsonDemoB])).response = ""
          ∧ (finalizeChat (chatRunChunks peDemo
              [mkContentChunk evalJsonDemoA, mkContentChunk evalJsonDemoB])).evaluations
            = demoPayload.evaluations
          ∧ (finalizeChat (chatRunChunks peDemo
              [mkContentChunk evalJsonDemoA, mkContentChunk evalJsonDemoB])).trace_id
            = demoPayload.traceId) :=
  ⟨by decide, by decide, rfl,
   C2_split_eval_fragments peDemo evalJsonDemoA evalJsonDemoB demoPayload
     (by decide) (by decide) rfl⟩

/-- C2 counterexample: on the accumulating assembler the two-fragment split
of the example payload yields `evaluations = some [...]` while the
single-fragment stream of the very same payload yields `evaluations = none`,
so the two runs do not produce the same result as the claim states. -/
theorem C2_counterexample :
    evalJsonDemoA ++ evalJsonDemoB = evalJsonDemo
      ∧ hasEvalMarker evalJsonDemoA = true
      ∧ peDemo evalJsonDemo = some demoPayload
      ∧ (finalizeChat (chatRunChunks peDemo
            [mkContentChunk evalJsonDemoA, mkContentChunk evalJsonDemoB])).evaluations
          = some [toxicityItem]
      ∧ (finalizeChat (chatRunChunks peDemo [mkContentChunk evalJsonDemo])).evaluations = none
      ∧ (finalizeChat (chatRunChunks peDemo
            [mkContentChunk evalJsonDemoA, mkContentChunk evalJsonDemoB])).evaluations
          ≠ (finalizeChat (chatRunChunks peDemo [mkContentChunk evalJsonDemo])).evaluations :=
  ⟨by decide, by decide, rfl, rfl, rfl, by decide⟩

/-- C3: for every stream of decoded chunks in which no content fragment
both starts with a brace and contains the substring "evaluations", the
assembled `response` equals the exact concatenation, in arrival order and
with no separator, of every `delta.content` fragment across all chunks and
choices — for the accumulating assembler (`Client.chat`) and the
single-chunk assembler (`LLMLabsClient.chat`) alike. -/
theorem C3_response_is_concatenation (pe : ParseEval) (chunks : List Chunk)
    (hall : ∀ c ∈ streamContents chunks, hasEvalMarker c = false) :
    (finalizeChat (chatRunChunks pe chunks)).response = joinFrags (streamContents chunks)
      ∧ (finalizeLlm (llmRunChunks pe chunks)).response = joinFrags (streamContents chunks) := by
  constructor
  · rw [chatRunChunks_response pe chunks,
      normalFragsFrom_of_no_marker pe (streamContents chunks) ContentCore.init hall rfl]
  · have h := llmRunChunks_stitched_no_marker pe chunks LlmState.init hall
    have h0 : (finalizeLlm (llmRunChunks pe chunks)).response
        = (llmRunChunks pe chunks).stitched_response := rfl
    rw [h0, llmRunChunks, h]
    simp [LlmState.init, String.empty_append]

/-- C3 witness: a two-chunk stream with fragments "Hello " and "world"
concatenates to "Hello world" on both assemblers. -/
theorem C3_response_is_concatenation_witness :
    (∀ c ∈ streamContents [chunkHello, chunkWorld], hasEvalMarker c = false)
      ∧ ((finalizeChat (chatRunChunks peDemo [chunkHello, chunkWorld])).response
            = joinFrags (streamContents [chunkHello, chunkWorld])
          ∧ (finalizeLlm (llmRunChunks peDemo [chunkHello, chunkWorld])).response
            = joinFrags (streamContents [chunkHello, chunkWorld])) :=
  ⟨by decide, C3_response_is_concatenation peDemo [chunkHello, chunkWorld] (by decide)⟩

/-- C4: invariant of the accumulating assembler — the final `response` is
exactly the concatenation of the fragments classified as normal (so no text
of any fragment classified as part of an evaluation payload ever reaches
`response`); a step that leaves the machine accumulating changes neither
`evaluations` nor the stitched response; and finalization reads neither the
evaluation buffer nor the mode flag, so a buffer left unterminated at
stream end is dropped, contributing neither to `response` nor to
`evaluations`. -/
theorem C4_no_evaluation_text_in_response (pe : ParseEval) (chunks : List Chunk) :
    (finalizeChat (chatRunChunks pe chunks)).response
        = joinFrags (normalFragsFrom pe ContentCore.init (streamContents chunks))
      ∧ (∀ (t : ContentCore) (c : String), (coreStep pe t c).in_evaluation_block = true →
          (coreStep pe t c).evaluations = t.evaluations
            ∧ (coreStep pe t c).stitched_response = t.stitched_response)
      ∧ (∀ s : ChatState,
          finalizeChat s
            = finalizeChat { s with evaluation_buffer := "", in_evaluation_block := false }) :=
  ⟨chatRunChunks_response pe chunks,
   fun t c h => coreStep_still_inblock pe t c h,
   fun _ => rfl⟩

/-- C4 witness: a stream that starts an evaluation block and then ends
while still accumulating — the follow-up fragment "Hello " is swallowed by
the buffer, the response stays empty, and the accumulating step left
`evaluations` untouched. -/
theorem C4_no_evaluation_text_in_response_witness :
    (finalizeChat (chatRunChunks peDemo [mkContentChunk evalJsonDemoA, chunkHello])).response
        = joinFrags (normalFragsFrom peDemo ContentCore.init
            (streamContents [mkContentChunk evalJsonDemoA, chunkHello]))
      ∧ (coreStep peDemo ContentCore.init evalJsonDemoA).in_evaluation_block = true
      ∧ (coreStep peDemo ContentCore.init evalJsonDemoA).evaluations
          = ContentCore.init.evaluations :=
  ⟨(C4_no_evaluation_text_in_response peDemo [mkContentChunk evalJsonDemoA, chunkHello]).1,
   by decide,
   ((C4_no_evaluation_text_in_response peDemo []).2.1 ContentCore.init evalJsonDemoA
     (by decide)).1⟩

/-- C5 (amended): when the transport signals a broken connection mid-read,
`LLMLabsClient.chat` reports `"Stream broken: ..."` and still returns the
result assembled from the delivered lines — identical to the
clean-termination result on those lines.  `Client.chat`, by contrast, lets
the `ChunkedEncodingError` (a `RequestException`) reach its outer handler,
which re-raises `ValueError("Request failed: ...")`, failing the call and
discarding the partially built result. -/
theorem C5_broken_stream_partial_result (pc : ParseChunk) (pe : ParseEval)
    (lines : List String) (emsg : String) :
    (llmChatStream pc pe lines (some emsg)).1 = some ("Stream broken: " ++ emsg)
      ∧ (llmChatStream pc pe lines (some emsg)).2 = (llmChatStream pc pe lines none).2
      ∧ (llmChatStream pc pe lines (some emsg)).2 = finalizeLlm (llmRunLines pc pe lines)
      ∧ clientChatStream pc pe lines (some emsg)
          = Except.error ("Request failed: " ++ emsg) :=
  ⟨rfl, rfl, rfl, rfl⟩

/-- C5 counterexample: a broken connection after one delivered line makes
`Client.chat` (cited by the claim) raise `ValueError` instead of returning
the partially built result — even though a nonempty partial response
("Hello ") had been assembled from the delivered lines. -/
theorem C5_counterexample :
    clientChatStream pcDemo peDemo ["data: " ++ chunkJsonHello] (some "Connection broken")
        = Except.error "Request failed: Connection broken"
      ∧ (finalizeChat (chatRunLines pcDemo peDemo ["data: " ++ chunkJsonHello])).response
          = "Hello " :=
  ⟨rfl, rfl⟩

/-- C6: a line whose payload fails JSON decoding is silently discarded by
both assemblers and never aborts processing of subsequent lines — the run
over any stream containing the bad line equals the run with the bad line
removed — and on the concrete stream `[valid, "data: not-json", valid]` the
result has exactly 2 raw chunks and a response reflecting only the two
valid chunks. -/
theorem C6_malformed_line_discarded (pc : ParseChunk) (pe : ParseEval)
    (pre post : List String) (bad : String) (h : pc (stripData bad) = none) :
    chatRunLines pc pe (pre ++ bad :: post) = chatRunLines pc pe (pre ++ post)
      ∧ llmRunLines pc pe (pre ++ bad :: post) = llmRunLines pc pe (pre ++ post)
      ∧ (finalizeChat (chatRunLines pcDemo peDemo
            ["data: " ++ chunkJsonHello, "data: not-json", "data: " ++ chunkJsonWorld])).raw_chunks
          = [chunkHello, chunkWorld]
      ∧ (finalizeChat (chatRunLines pcDemo peDemo
            ["data: " ++ chunkJsonHello, "data: not-json", "data: " ++ chunkJsonWorld])).response
          = "Hello world" :=
  ⟨chatRunLines_skip_undecodable pc pe pre post bad h,
   llmRunLines_skip_undecodable pc pe pre post bad h, by decide, by decide⟩

/-- C6 witness: the theorem applied to the concrete malformed line
`"data: not-json"` between the two valid demo lines. -/
theorem C6_malformed_line_discarded_witness :
    pcDemo (stripData "data: not-json") = none
      ∧ chatRunLines pcDemo peDemo
          (["data: " ++ chunkJsonHello] ++ "data: not-json" :: ["data: " ++ chunkJsonWorld])
        = chatRunLines pcDemo peDemo
            (["data: " ++ chunkJsonHello] ++ ["data: " ++ chunkJsonWorld]) :=
  ⟨by decide,
   (C6_malformed_line_discarded pcDemo peDemo ["data: " ++ chunkJsonHello]
     ["data: " ++ chunkJsonWorld] "data: not-json" (by decide)).1⟩

/-- C7 (amended): the batch fan-out writes each item's outcome into a slot
keyed by the item's original index, so for every completion order that is a
permutation of the indices the returned list equals, in input order, the
successful outcomes — order-preserving and unaffected by other items'
failures.  However, a failing item's `None` slot is filtered out of the
returned list (`[r for r in results if r is not None]`), so with 3 inputs
and item 1 failing the caller receives a list of length 2 (items 0 and 2 in
order), not a length-3 list with an absent middle slot. -/
theorem C7_batch_order_preserved (α : Type) (outcome : Nat → Option α) (n : Nat)
    (order : List Nat) (hperm : order.Perm (List.range n)) :
    batchReturned outcome n order = (List.range n).filterMap outcome :=
  batchReturned_eq_filterMap outcome n order hperm

/-- Concrete batch outcome: 3 items, item 1 raises. -/
def outcomeDemo : Nat → Option String := fun i =>
  if i = 0 then some "r0" else if i = 2 then some "r2" else none

/-- C7 witness: the theorem applied to 3 items completing in the order
[2, 0, 1]. -/
theorem C7_batch_order_preserved_witness :
    ([2, 0, 1] : List Nat).Perm (List.range 3)
      ∧ batchReturned outcomeDemo 3 [2, 0, 1] = (List.range 3).filterMap outcomeDemo :=
  ⟨by decide, C7_batch_order_preserved String outcomeDemo 3 [2, 0, 1] (by decide)⟩

/-- C7 counterexample: with 3 inputs where item 1 raises, the returned list
is `["r0", "r2"]` — length 2 with the failed slot filtered out, not length 3
with item 1 absent as the claim states. -/
theorem C7_counterexample :
    outcomeDemo 1 = none
      ∧ batchReturned outcomeDemo 3 [2, 0, 1] = ["r0", "r2"]
      ∧ (batchReturned outcomeDemo 3 [2, 0, 1]).length = 2
      ∧ (batchReturned outcomeDemo 3 [2, 0, 1]).length ≠ 3 :=
  ⟨rfl, by decide, by decide, by decide⟩

/-- C8 (amended): the streaming `LLMLabsClient.chat` classifies non-2xx
statuses by range into three distinct error kinds — client error (4xx),
server error (5xx), unexpected status (anything else) — each message
carrying the status code and the raw response body verbatim.  The
non-streaming operations (`Client.evaluate` / `Client.safety_evaluation`),
however, raise the single `Evaluation API error` kind for every non-2xx
status (still carrying code and body), so a 404 on a non-streaming call
does not raise a client-error-specific kind. -/
theorem C8_status_error_kinds (code : Nat) (body : String) :
    (400 ≤ code ∧ code < 500 →
        llmStatusCheck code body
          = Except.error ("Client error " ++ toString code ++ ": " ++ body))
      ∧ (500 ≤ code ∧ code < 600 →
        llmStatusCheck code body
          = Except.error ("Server error " ++ toString code ++ ": " ++ body))
      ∧ (¬(200 ≤ code ∧ code < 300) → (code < 400 ∨ 600 ≤ code) →
        llmStatusCheck code body
          = Except.error ("Unexpected status code " ++ toString code ++ ": " ++ body))
      ∧ (¬(200 ≤ code ∧ code < 300) →
        evaluateStatusCheck code body
          = Except.error ("Evaluation API error " ++ toString code ++ ": " ++ body)) := by
  refine ⟨fun h => ?_, fun h => ?_, fun h1 h2 => ?_, fun h => ?_⟩
  · unfold llmStatusCheck
    rw [if_neg (by omega), if_pos (by omega)]
  · unfold llmStatusCheck
    rw [if_neg (by omega), if_neg (by omega), if_pos (by omega)]
  · unfold llmStatusCheck
    rw [if_neg h1, if_neg (by omega), if_neg (by omega)]
  · unfold evaluateStatusCheck
    rw [if_neg h]

/-- C8 witness: status 404 with body "not found" on the streaming check
raises the client-error kind, and on the non-streaming check raises the
undifferentiated evaluation-API-error kind — both carrying code and body. -/
theorem C8_status_error_kinds_witness :
    (400 ≤ 404 ∧ 404 < 500)
      ∧ ¬(200 ≤ 404 ∧ 404 < 300)
      ∧ llmStatusCheck 404 "not found"
          = Except.error ("Client error " ++ toString 404 ++ ": " ++ "not found")
      ∧ evaluateStatusCheck 404 "not found"
          = Except.error ("Evaluation API error " ++ toString 404 ++ ": " ++ "not found") :=
  ⟨by decide, by decide, (C8_status_error_kinds 404 "not found").1 (by decide),
   (C8_status_error_kinds 404 "not found").2.2.2 (by decide)⟩

/-- C8 counterexample: on the non-streaming call, status 404 with body
"not found" raises `Evaluation API error 404: not found` — the same kind as
a 5xx response and not the client-error kind the claim requires (exhibited
by the streaming path's `Client error 404: not found`). -/
theorem C8_counterexample :
    evaluateStatusCheck 404 "not found"
        = Except.error "Evaluation API error 404: not found"
      ∧ evaluateStatusCheck 503 "oops" = Except.error "Evaluation API error 503: oops"
      ∧ errKind "Evaluation API error 404: not found"
          = errKind "Evaluation API error 503: oops"
      ∧ llmStatusCheck 404 "not found" = Except.error "Client error 404: not found"
      ∧ errKind "Evaluation API error 404: not found" ≠ errKind "Client error 404: not found" :=
  ⟨rfl, rfl, by decide, rfl, by decide⟩

/-- C9 (amended): `model` capture is first-truthy-wins: a chunk's model
value is captured only while the current value is `None` or the empty
string, so given two chunks whose model values are non-empty (and in
particular differ), both assemblers report the first chunk's value.  A
first value that is the empty string — non-null in JSON — does not stick
(see the counterexample). -/
theorem C9_model_first_truthy (pe : ParseEval) (c1 c2 : Chunk) (v1 v2 : String)
    (h1 : c1.model = some v1) (hne : v1 ≠ "") (h2 : c2.model = some v2) :
    (finalizeChat (chatRunChunks pe [c1, c2])).model = some v1
      ∧ (finalizeLlm (llmRunChunks pe [c1, c2])).model = some v1 := by
  have hb : pyTruthy (some v1) = true := by
    simp only [pyTruthy]
    exact bne_iff_ne.mpr hne
  constructor
  · have m1 : (chatChunkStep pe ChatState.init c1).model = some v1 := by
      rw [chatChunkStep_model]
      simp [ChatState.init, pyTruthy, h1]
    have m2 : (chatChunkStep pe (chatChunkStep pe ChatState.init c1) c2).model = some v1 := by
      rw [chatChunkStep_model, m1, hb]
      simp
    exact m2
  · have m1 : (llmChunkStep pe LlmState.init c1).model = some v1 := by
      rw [llmChunkStep_model]
      simp [LlmState.init, pyTruthy, h1]
    have m2 : (llmChunkStep pe (llmChunkStep pe LlmState.init c1) c2).model = some v1 := by
      rw [llmChunkStep_model, m1, hb]
      simp
    exact m2

/-- Second demo chunk for the model-capture witness. -/
def chunkOther : Chunk := { model := some "other-model", id := none, choices := none }

/-- C9 witness: two chunks with differing non-empty model values — the
result's model is the first chunk's value on both assemblers. -/
theorem C9_model_first_truthy_witness :
    chunkWorld.model = some "demo-model"
      ∧ ("demo-model" : String) ≠ ""
      ∧ chunkOther.model = some "other-model"
      ∧ ((finalizeChat (chatRunChunks peDemo [chunkWorld, chunkOther])).model
            = some "demo-model"
          ∧ (finalizeLlm (llmRunChunks peDemo [chunkWorld, chunkOther])).model
            = some "demo-model") :=
  ⟨rfl, by decide, rfl,
   C9_model_first_truthy peDemo chunkWorld chunkOther "demo-model" "other-model" rfl
     (by decide) rfl⟩

/-- C9 counterexample: with a first chunk carrying `model = ""` (a non-null
value) and a second carrying `model = "gpt-4"`, the result's model is
`"gpt-4"`, not the first non-null value `""` as the claim states. -/
theorem C9_counterexample :
    ({ model := some "", id := none, choices := none } : Chunk).model = some ""
      ∧ (finalizeChat (chatRunChunks peDemo
          [{ model := some "", id := none, choices := none },
           { model := some "gpt-4", id := none, choices := none }])).model = some "gpt-4"
      ∧ (some "gpt-4" : Option String) ≠ some "" :=
  ⟨rfl, by decide, by decide⟩

/-- C10: the trace id of the `EvaluationResult` returned by
`Client.evaluate` / `Client.safety_evaluation` is the caller-supplied trace
id when a non-empty one is provided and otherwise the freshly generated
UUID (`gen`, never empty); the `traceId` in the server's response body
never overrides it — the right-hand side below does not mention
`resultData` — because `EvaluationResult` falls back to the payload's
`traceId` only when the passed trace id is empty.  The second conjunct
shows the opposite precedence on the streaming path: a successfully parsed
evaluation payload's `traceId` overwrites the current trace id. -/
theorem C10_trace_id_precedence (caller : Option String) (gen : String)
    (resultData : EvalPayload) (hgen : gen ≠ "") :
    evaluateResultTraceId caller gen resultData
        = (match caller with
           | some t => if t = "" then gen else t
           | none => gen)
      ∧ (∀ (pe : ParseEval) (s : ChatState) (content : String) (p : EvalPayload) (t : String),
          hasEvalMarker content = false → s.in_evaluation_block = true →
          pe (s.evaluation_buffer ++ content) = some p → p.traceId = some t →
          (chatContentStep pe s content).trace_id = some t) := by
  have hgenb : (gen != "") = true := bne_iff_ne.mpr hgen
  constructor
  · cases caller with
    | none =>
        simp [evaluateResultTraceId, evaluateTraceId, evalResultTraceId, pyTruthy, hgenb]
    | some t =>
        by_cases ht : t = ""
        · subst ht
          simp [evaluateResultTraceId, evaluateTraceId, evalResultTraceId, pyTruthy, hgenb]
        · have htb : (t != "") = true := bne_iff_ne.mpr ht
          simp [evaluateResultTraceId, evaluateTraceId, evalResultTraceId, pyTruthy, htb, ht]
  · intro pe s content p t hm hb hpe ht
    simp [chatContentStep, hm, hb, hpe, ht]

/-- C10 witness: with no caller-supplied trace id the result carries the
generated UUID regardless of the payload's `traceId`; and on the streaming
path the parsed payload's `traceId` ("abc") wins. -/
theorem C10_trace_id_precedence_witness :
    (("123e4567-e89b-12d3-a456-426614174000" : String) ≠ "")
      ∧ evaluateResultTraceId none "123e4567-e89b-12d3-a456-426614174000" demoPayload
          = "123e4567-e89b-12d3-a456-426614174000"
      ∧ (chatContentStep peDemo
          { ChatState.init with
              in_evaluation_block := true, evaluation_buffer := evalJsonDemoA }
          evalJsonDemoB).trace_id = some "abc" :=
  ⟨by decide,
   (C10_trace_id_precedence none "123e4567-e89b-12d3-a456-426614174000" demoPayload
     (by decide)).1,
   (C10_trace_id_precedence none "123e4567-e89b-12d3-a456-426614174000" demoPayload
     (by decide)).2 peDemo
     { ChatState.init with
         in_evaluation_block := true, evaluation_buffer := evalJsonDemoA }
     evalJsonDemoB demoPayload "abc" (by decide) rfl rfl rfl⟩
